import Mathlib

/-!
Verification of the gappsd daemon (Polytechnique.org Google Apps daemon)
against its natural-language specification.

The development shallowly embeds the parts of the Python source that the
claims are about:
  * `src/gappsd/job.py`    — the `Job` record, its status transitions
    (`MarkFailed`, `MarkAdmin`, `MarkActive`, `Update`) and the
    side-effect flag `PROP__SIDE_EFFECTS` / `HasSideEffects`;
  * `src/gappsd/queue.py`  — the queue manager: eligibility where-clause,
    per-priority delay computation, job selection, `_ProcessJob`,
    `_CheckTransientErrors`, and one cycle of `Queue.Run`;
  * `src/gappsd/daemon.py` — the supervisor loop's exception dispatch;
  * `src/gappsd/provisioning.py` — `UserDeleteJob.Run`;
  * `src/gappsd/reporting.py`    — `ReportingApiClient.GetLatestReportDate`.

Times are modelled as naturals (seconds, except where noted); SQL rows are
records; Python exceptions are modelled with `Except` over an explicit
error type.  Database and HTTP failures of the environment are not
modelled: handlers report their outcome through an oracle that may only
produce the classified errors of the source's error taxonomy
(`logger.PermanentError`, `logger.TransientError`,
`logger.CredentialError`).
-/

namespace Gappsd

/-! ## Data model: the queue row (spec section 3; columns of `gapps_queue`) -/

/-- The `p_status` enumeration of a queue row (job.py, `STATUS_*`). -/
inductive Status
  | idle
  | active
  | success
  | softfail
  | hardfail
  deriving DecidableEq, Repr

/-- One row of the `gapps_queue` table.  Dates are seconds since the epoch;
nullable SQL columns are `Option`. -/
structure QueueRow where
  q_id : Nat
  j_type : String
  p_priority : String
  p_status : Status
  p_admin_request : Bool
  p_entry_date : Nat
  p_notbefore_date : Nat
  p_start_date : Option Nat
  p_end_date : Option Nat
  r_softfail_count : Nat
  r_softfail_date : Option Nat
  r_result : String
  deriving DecidableEq, Repr

/-- The configuration keys consulted by the embedded code
(config.py defaults: job-softfail-delay 300, job-softfail-threshold 4,
queue-min-delay 2, queue-delay-normal 10, queue-delay-offline 30). -/
structure Config where
  job_softfail_delay : Nat
  job_softfail_threshold : Nat
  read_only : Bool
  admin_only_jobs : Bool
  queue_min_delay : Nat
  queue_delay_normal : Nat
  queue_delay_offline : Nat
  deriving DecidableEq, Repr

/-! ## job.py: the `Job` record and its status transitions -/

/-- `JobActionError` (job.py): raised by `Job.Update` on an invalid target
status. -/
inductive JobActionError
  | idleOrActive
  | unknownStatus
  deriving DecidableEq, Repr

/-- The `values` dictionary accumulated by `Job.Update` before being written
back to the row: `none` means the column is not part of the write. -/
structure UpdateValues where
  p_status : Option Status := none
  p_notbefore_date : Option Nat := none
  r_softfail_date : Option Nat := none
  r_softfail_count : Option Nat := none
  p_end_date : Option Nat := none
  r_result : Option String := none
  deriving DecidableEq, Repr

/-- `Job.Update` (job.py lines 198-240), as the column writes it produces.
`count` is the job's `r_softfail_count` before the call; `now` stands for
`datetime.datetime.now()` (the source samples the clock twice in the same
call, once for `now` and once for `notbefore`; both are modelled by the
single instant `now`). -/
def Job.UpdateValues (cfg : Config) (now : Nat) (count : Nat)
    (status : Status) (message : String) :
    Except JobActionError Gappsd.UpdateValues :=
  if status = .idle ∨ status = .active then
    .error .idleOrActive
  else
    let step1 : Status × String × Gappsd.UpdateValues :=
      if status = .softfail then
        let count1 := count + 1
        let promoted :=
          if cfg.job_softfail_threshold ≤ count1 then
            (Status.hardfail, message ++ " [softfail threshold reached]")
          else
            (status, message)
        (promoted.1, promoted.2,
          { p_status := some promoted.1,
            p_notbefore_date := some (now + cfg.job_softfail_delay),
            r_softfail_date := some now,
            r_softfail_count := some count1,
            r_result := some promoted.2 })
      else
        (status, message, {})
    let status1 := step1.1
    let message1 := step1.2.1
    let values1 := step1.2.2
    let values2 :=
      if status1 = .success ∨ status1 = .hardfail then
        { values1 with
            p_status := some status1,
            p_end_date := some now,
            r_result := some message1 }
      else
        values1
    if values2 = ({} : Gappsd.UpdateValues) then
      .error .unknownStatus
    else
      .ok values2

/-- `self._data.update(values)` followed by `sql.Update` (job.py line 239-240):
applying the produced column writes to a row. -/
def applyUpdateValues (r : QueueRow) (v : UpdateValues) : QueueRow :=
  { r with
      p_status := v.p_status.getD r.p_status,
      p_notbefore_date := v.p_notbefore_date.getD r.p_notbefore_date,
      r_softfail_date :=
        match v.r_softfail_date with
        | some d => some d
        | none => r.r_softfail_date,
      r_softfail_count := v.r_softfail_count.getD r.r_softfail_count,
      p_end_date :=
        match v.p_end_date with
        | some d => some d
        | none => r.p_end_date,
      r_result := v.r_result.getD r.r_result }

/-- `Job.Update` acting on the full row. -/
def Job.Update (cfg : Config) (now : Nat) (r : QueueRow)
    (status : Status) (message : String) : Except JobActionError QueueRow :=
  (Job.UpdateValues cfg now r.r_softfail_count status message).map
    (applyUpdateValues r)

/-- `Job.MarkActive` (job.py lines 188-196): set the row to `active` with
`p_start_date = now`. -/
def Job.MarkActive (now : Nat) (r : QueueRow) : QueueRow :=
  { r with p_status := .active, p_start_date := some now }

/-- `Job.MarkFailed` (job.py lines 162-172): force a row into `hardfail` with
`p_end_date = now` and `r_result = message`. -/
def Job.MarkFailed (now : Nat) (message : String) (r : QueueRow) : QueueRow :=
  { r with p_status := .hardfail, p_end_date := some now, r_result := message }

/-- `Job.MarkAdmin` (job.py lines 174-186): park the row for the admin
console (`idle`, `p_start_date = NULL`, `p_admin_request = TRUE`) and emit a
critical log event.  The returned flag records that the critical event was
emitted. -/
def Job.MarkAdmin (r : QueueRow) : QueueRow × Bool :=
  ({ r with p_status := .idle, p_start_date := none, p_admin_request := true },
   true)

/-! ## Job types, registry and side-effect flags -/

/-- The job types registered in the global registry (provisioning.py lines
674-680, reporting.py lines 341-342). -/
inductive JobType
  | u_create
  | u_delete
  | u_sync
  | u_update
  | n_create
  | n_delete
  | n_resync
  | r_activity
  | r_accounts
  deriving DecidableEq, Repr

/-- `job.job_registry` lookup: `j_type` tag to registered class
(`none` models the `JobTypeError` raised for an unregistered tag). -/
def job_registry : String → Option JobType
  | "u_create" => some .u_create
  | "u_delete" => some .u_delete
  | "u_sync" => some .u_sync
  | "u_update" => some .u_update
  | "n_create" => some .n_create
  | "n_delete" => some .n_delete
  | "n_resync" => some .n_resync
  | "r_activity" => some .r_activity
  | "r_accounts" => some .r_accounts
  | _ => none

/-- `PROP__SIDE_EFFECTS`, resolved through the Python class hierarchy:
the base `Job` declares `True` (job.py line 112), `ProvisioningJob`
re-declares `True` (provisioning.py line 35), and the only override is
`UserSynchronizeJob.PROP__SIDE_EFFECTS = False` (provisioning.py line 164).
`NicknameResyncJob`, `ActivityJob` and `AccountsJob` declare nothing and
inherit `True`. -/
def PROP_SIDE_EFFECTS : JobType → Bool
  | .u_sync => false
  | _ => true

/-- `Job.HasSideEffects` (job.py lines 158-159):
`self.PROP__SIDE_EFFECTS != False`. -/
def HasSideEffects (t : JobType) : Bool :=
  PROP_SIDE_EFFECTS t != false

/-! ## queue.py: eligibility, delays, selection, processing -/

/-- `p_status IN ('idle', 'active', 'softfail')` (queue.py line 67). -/
def statusInIdleActiveSoftfail (s : Status) : Bool :=
  s == .idle || s == .active || s == .softfail

/-- `DATE_ADD(p_start_date, INTERVAL 90 SECOND) <= NOW()` (queue.py line 71);
a SQL `NULL` operand makes the comparison non-true. -/
def leaseExpired (now : Nat) : Option Nat → Bool
  | none => false
  | some s => decide (s + 90 ≤ now)

/-- `Queue._ACTIVE_JOBS_WHERE_CLAUSE` (queue.py lines 66-71), as a predicate
on one row evaluated at instant `now`:
`p_status IN ('idle','active','softfail') AND p_notbefore_date <= NOW() AND
p_admin_request IS FALSE AND (p_start_date IS NULL OR p_status = 'idle' OR
DATE_ADD(p_start_date, INTERVAL 90 SECOND) <= NOW())`. -/
def activeJobsWhereClause (now : Nat) (r : QueueRow) : Bool :=
  statusInIdleActiveSoftfail r.p_status &&
  decide (r.p_notbefore_date ≤ now) &&
  !r.p_admin_request &&
  (r.p_start_date.isNone || r.p_status == .idle || leaseExpired now r.p_start_date)

/-- Modelled from the spec (claim C1, spec section 4.6.1): "A row is
dispatchable iff it is non-admin and (`p_status` in {idle, softfail} with
`p_notbefore_date ≤ now`) or (`p_status = active` with `p_start_date` older
than 90 seconds)", with the boundary sentence making 90 seconds exactly
count as expired. -/
def dispatchableSpecC1 (now : Nat) (r : QueueRow) : Bool :=
  !r.p_admin_request &&
  (((r.p_status == .idle || r.p_status == .softfail) &&
      decide (r.p_notbefore_date ≤ now)) ||
   (r.p_status == .active && leaseExpired now r.p_start_date))

/-- The error universe of the embedded Python code. `permanentError` and
`transientError` stand for `logger.PermanentError` / `logger.TransientError`
(which `database.SQLPermanentError` / `database.SQLTransientError` subclass),
`credentialError` for `logger.CredentialError` (a subclass of
`TransientError`), `jobActionError` for `job.JobActionError`, and
`typeError` for the interpreter's `TypeError`. -/
inductive PyError
  | permanentError (msg : String)
  | transientError
  | credentialError
  | jobActionError (e : JobActionError)
  | typeError
  | keyboardInterrupt
  deriving DecidableEq, Repr

/-- `Queue._MAX_QUEUE_DELAY = 24 * 3600` (queue.py line 63). -/
def MAX_QUEUE_DELAY : Nat := 24 * 3600

/-- `Queue._TRANSIENT_ERRORS_VALIDITY` (queue.py line 82). -/
def TRANSIENT_ERRORS_VALIDITY : Nat := 3600

/-- `Queue._CREDENTIAL_ERRORS_THRESHOLD` (queue.py line 83). -/
def CREDENTIAL_ERRORS_THRESHOLD : Nat := 2

/-- `Queue._TRANSIENT_ERRORS_THRESHOLD` (queue.py line 84). -/
def TRANSIENT_ERRORS_THRESHOLD : Nat := 4

/-- `Queue._PRIORITY_ORDER` (queue.py line 61). -/
def PRIORITY_ORDER : List String := ["immediate", "normal", "offline"]

/-- The `self._delays` dictionary (queue.py lines 92-96); `none` models the
`KeyError` taken for an unknown priority class. -/
def delaysDict (cfg : Config) (p : String) : Option Nat :=
  if p = "immediate" then some cfg.queue_min_delay
  else if p = "normal" then some cfg.queue_delay_normal
  else if p = "offline" then some cfg.queue_delay_offline
  else none

/-- `Queue._GetCurrentQueueDelays` (queue.py lines 135-156) on one priority
class: on a `KeyError` for the class it raises
`PermanentError("Priority queue '%s' not supported.")`; otherwise it shrinks
the nominal delay when the projected drain time exceeds `_MAX_QUEUE_DELAY`
(Python 2 `/` on ints is floor division).  The overflow warning only logs
and is not modelled. -/
def queueDelayFor (cfg : Config) (queue : String) (jobCount : Nat) :
    Except PyError Nat :=
  match delaysDict cfg queue with
  | none =>
      .error (.permanentError ("Priority queue '" ++ queue ++ "' not supported."))
  | some normalDelay =>
      if MAX_QUEUE_DELAY < jobCount * normalDelay then
        .ok (max (MAX_QUEUE_DELAY / jobCount) cfg.queue_min_delay)
      else
        .ok normalDelay

/-- `Queue._GetCurrentQueueDelays` over the whole `job_counts` dictionary
(kept as an association list in its iteration order). -/
def GetCurrentQueueDelays (cfg : Config) :
    List (String × Nat) → Except PyError (List (String × Nat))
  | [] => .ok []
  | (q, cnt) :: rest => do
      let d ← queueDelayFor cfg q cnt
      let rest' ← GetCurrentQueueDelays cfg rest
      pure ((q, d) :: rest')

/-- `Queue._GetJobCounts` (queue.py lines 182-188): the number of rows
matching the active-jobs where-clause, grouped by `p_priority`. -/
def GetJobCounts (now : Nat) (rows : List QueueRow) : List (String × Nat) :=
  let runnable := rows.filter (activeJobsWhereClause now)
  let priorities := (runnable.map (·.p_priority)).eraseDups
  priorities.map (fun p => (p, (runnable.filter (·.p_priority == p)).length))

/-- The `self._last_jobs` dictionary (queue.py lines 97-101). -/
structure LastJobs where
  immediate : Option Nat := none
  normal : Option Nat := none
  offline : Option Nat := none
  deriving DecidableEq, Repr

/-- `self._last_jobs[queue]`; `none` in the `Except` error models the
`KeyError` converted to a `PermanentError` (queue.py lines 167-168). -/
def LastJobs.get (lj : LastJobs) (queue : String) :
    Except PyError (Option Nat) :=
  if queue = "immediate" then .ok lj.immediate
  else if queue = "normal" then .ok lj.normal
  else if queue = "offline" then .ok lj.offline
  else .error (.permanentError ("Priority queue '" ++ queue ++ "' not supported."))

/-- `self._last_jobs[queue] = datetime.datetime.now()` (queue.py line 178). -/
def LastJobs.set (lj : LastJobs) (queue : String) (now : Nat) : LastJobs :=
  if queue = "immediate" then { lj with immediate := some now }
  else if queue = "normal" then { lj with normal := some now }
  else if queue = "offline" then { lj with offline := some now }
  else lj

/-- `Queue._CanProcessFromQueue` (queue.py lines 158-168): `True` when no
job was yet dispatched from the class this run, or when `queue_delay`
seconds have elapsed since the last one. -/
def CanProcessFromQueue (lj : LastJobs) (queue : String) (queueDelay : Nat)
    (now : Nat) : Except PyError Bool := do
  match (← lj.get queue) with
  | none => pure true
  | some last => pure (decide (last + queueDelay ≤ now))

/-! ## queue.py: job instantiation and `_ProcessJob` -/

/-- An instantiated job object: the registered class it was dispatched to
plus its `_data` row image. -/
structure JobObj where
  jtype : JobType
  data : QueueRow
  deriving DecidableEq, Repr

/-- The outcome of `j.Run()` for one job, supplied by the environment.
Handlers terminate either normally (carrying the row as their own
`Update`/`MarkAdmin` calls left it) or by raising a classified error
(`PermanentError`, `TransientError`, or its subclass `CredentialError`),
the row being as the interrupted handler left it. -/
inductive RunOutcome
  | normal (rowAfter : QueueRow)
  | transient (rowAt : QueueRow) (isCredential : Bool) (msg : String)
  | permanent (rowAt : QueueRow) (msg : String)

/-- One record of `self._transient_errors` (queue.py lines 258-266): its
date and whether `exc_type` is a subclass of `logger.CredentialError`. -/
structure TransientRecord where
  date : Nat
  isCredential : Bool
  deriving DecidableEq, Repr

/-- What `Queue._ProcessJob` did: whether `j.Run()` was invoked, the row as
written back, and the record appended by `_AddTransientError` (if any). -/
structure ProcessJobResult where
  ranHandler : Bool
  row : QueueRow
  addedError : Option TransientRecord
  deriving Repr

/-- `Queue._ProcessJob` (queue.py lines 214-245).  A `JobActionError`
raised by `j.Update` would escape (none of the `except` clauses catches
it); this is modelled by the `Except` propagation. -/
def ProcessJob (cfg : Config) (now : Nat) (j : JobObj) (outcome : RunOutcome) :
    Except PyError ProcessJobResult :=
  if cfg.read_only && HasSideEffects j.jtype then
    match Job.Update cfg now j.data .hardfail "GAppsd in read-only mode." with
    | .error e => .error (.jobActionError e)
    | .ok r => .ok { ranHandler := false, row := r, addedError := none }
  else
    match outcome with
    | .normal rowAfter =>
        if rowAfter.p_status = .success ∨ rowAfter.p_status = .hardfail ∨
           rowAfter.p_status = .idle then
          .ok { ranHandler := true, row := rowAfter, addedError := none }
        else if rowAfter.r_softfail_count = j.data.r_softfail_count then
          match Job.Update cfg now rowAfter .success "" with
          | .error e => .error (.jobActionError e)
          | .ok r => .ok { ranHandler := true, row := r, addedError := none }
        else
          .ok { ranHandler := true, row := rowAfter, addedError := none }
    | .transient rowAt isCred msg =>
        match Job.Update cfg now rowAt .softfail msg with
        | .error e => .error (.jobActionError e)
        | .ok r =>
            .ok { ranHandler := true, row := r,
                  addedError := some { date := now, isCredential := isCred } }
    | .permanent rowAt msg =>
        match Job.Update cfg now rowAt .hardfail msg with
        | .error e => .error (.jobActionError e)
        | .ok r => .ok { ranHandler := true, row := r, addedError := none }

/-! ## queue.py: selection (`_GetJobFromQueue`, `_ProcessNextJob`) and the
run loop -/

/-- Replace the row with the given `q_id` (a keyed `sql.Update`). -/
def writeRow (rows : List QueueRow) (qid : Nat) (f : QueueRow → QueueRow) :
    List QueueRow :=
  rows.map (fun r => if r.q_id = qid then f r else r)

/-- `ORDER BY q_id LIMIT 1`: the eligible row with the smallest `q_id`. -/
def oldestRow (rows : List QueueRow) : Option QueueRow :=
  rows.foldl
    (fun acc r =>
      match acc with
      | none => some r
      | some m => if r.q_id < m.q_id then some r else some m)
    none

/-- `Queue._GetJobFromQueue` (queue.py lines 190-212): select the oldest
eligible row of the class, instantiate it through the registry and
`MarkActive` it; on a `JobError` during instantiation (unregistered
`j_type`), `MarkFailed` the row and return no job. -/
def GetJobFromQueue (now : Nat) (rows : List QueueRow) (queue : String) :
    Option JobObj × List QueueRow :=
  let candidates := rows.filter
    (fun r => activeJobsWhereClause now r && r.p_priority == queue)
  match oldestRow candidates with
  | none => (none, rows)
  | some r =>
      match job_registry r.j_type with
      | none =>
          (none,
           writeRow rows r.q_id
             (Job.MarkFailed now
               ("Job instantiation error: Job '" ++ r.j_type ++ "' is undefined.")))
      | some t =>
          let r' := Job.MarkActive now r
          (some { jtype := t, data := r' }, writeRow rows r.q_id (fun _ => r'))

/-- The mutable state of one `Queue` object together with the table it
works on. -/
structure QueueState where
  rows : List QueueRow
  transient_errors : List TransientRecord
  last_jobs : LastJobs

/-- The environment oracle: what `j.Run()` does for the job with the given
`q_id`. -/
def RunEnv : Type := Nat → RunOutcome

/-- The body of the `while self._CanProcessFromQueue(...)` loop inside
`Queue._GetNextPriorityQueue` (queue.py lines 177-179) fused with the
consuming loop of `_ProcessNextJob` (queue.py lines 251-255), at the fixed
instant `now`: while the class's delay allows it, stamp `_last_jobs`, fetch
a job and process it.  `fuel` bounds the iteration count (with a positive
class delay the loop yields at most once per cycle at a fixed instant). -/
def processClassLoop (cfg : Config) (env : RunEnv) (now : Nat)
    (queue : String) (queueDelay : Nat) :
    Nat → QueueState → Except PyError QueueState
  | 0, st => .ok st
  | fuel + 1, st => do
      let can ← CanProcessFromQueue st.last_jobs queue queueDelay now
      if can then
        let st := { st with last_jobs := st.last_jobs.set queue now }
        let (jobOpt, rows) := GetJobFromQueue now st.rows queue
        let st := { st with rows := rows }
        match jobOpt with
        | none => processClassLoop cfg env now queue queueDelay fuel st
        | some j => do
            let res ← ProcessJob cfg now j (env j.data.q_id)
            let st :=
              { st with
                  rows := writeRow st.rows j.data.q_id (fun _ => res.row),
                  transient_errors :=
                    st.transient_errors ++ res.addedError.toList }
            processClassLoop cfg env now queue queueDelay fuel st
      else
        .ok st

/-- The per-class part of `_ProcessNextJob`: for each class of
`_PRIORITY_ORDER` that has waiting jobs, run the dispatch loop with the
class's computed delay. -/
def processClasses (cfg : Config) (env : RunEnv) (now : Nat) (fuel : Nat)
    (jobCounts delays : List (String × Nat)) :
    List String → QueueState → Except PyError QueueState
  | [], st => .ok st
  | q :: qs, st => do
      let st' ←
        if 0 < ((jobCounts.lookup q).getD 0) then
          processClassLoop cfg env now q ((delays.lookup q).getD 0) fuel st
        else
          Except.ok st
      processClasses cfg env now fuel jobCounts delays qs st'

/-- `Queue._ProcessNextJob` (queue.py lines 247-255) together with the
generator `_GetNextPriorityQueue` (lines 170-179) it drains: count runnable
jobs, compute the per-class delays, then dispatch class by class. -/
def ProcessNextJob (cfg : Config) (env : RunEnv) (now : Nat) (fuel : Nat)
    (st : QueueState) : Except PyError QueueState := do
  let jobCounts := GetJobCounts now st.rows
  let delays ← GetCurrentQueueDelays cfg jobCounts
  processClasses cfg env now fuel jobCounts delays PRIORITY_ORDER st

/-- The head-pruning `while` loop of `Queue._CheckTransientErrors`
(queue.py lines 282-284): pop leading records strictly older than the
validity date. -/
def dropExpired (validity : Int) : List TransientRecord → List TransientRecord
  | [] => []
  | e :: es =>
      if (e.date : Int) < validity then dropExpired validity es else e :: es

/-- `Queue._CheckTransientErrors` (queue.py lines 268-301): prune the
sliding window, partition into credential and other transient records, and
raise `CredentialError` (resp. `TransientError`) when the corresponding
threshold is reached.  Returns the pruned window otherwise. -/
def CheckTransientErrors (now : Nat) (errors : List TransientRecord) :
    Except PyError (List TransientRecord) :=
  let remaining :=
    dropExpired ((now : Int) - (TRANSIENT_ERRORS_VALIDITY : Int)) errors
  let credentialErrors := remaining.filter (·.isCredential)
  let transientErrors := remaining.filter (fun e => !e.isCredential)
  if CREDENTIAL_ERRORS_THRESHOLD ≤ credentialErrors.length then
    .error .credentialError
  else if TRANSIENT_ERRORS_THRESHOLD ≤ transientErrors.length then
    .error .transientError
  else
    .ok remaining

/-- One iteration of the `while True` loop of `Queue.Run` (queue.py lines
321-329) at instant `now`: check the transient-error window, then select
and process jobs.  (`_LogStatistics` and the sleep only log and wait.) -/
def RunCycle (cfg : Config) (env : RunEnv) (now : Nat) (fuel : Nat)
    (st : QueueState) : Except PyError QueueState := do
  let pruned ← CheckTransientErrors now st.transient_errors
  ProcessNextJob cfg env now fuel { st with transient_errors := pruned }

/-! ## daemon.py: the supervisor's exception dispatch -/

/-- What one iteration of `Daemon.Run`'s dispatch decides (daemon.py lines
163-186). -/
inductive DaemonAction
  | exitClean
  | backupMode
  | continueLoop
  deriving DecidableEq, Repr

/-- `Daemon._CheckForTransientErrors` (daemon.py lines 129-138) on the
supervisor's own sliding window (dates of received `TransientError`s):
prune entries older than 1 hour, then compare against the threshold 4. -/
def daemonPruneWindow (validity : Int) : List Nat → List Nat
  | [] => []
  | d :: ds => if (d : Int) < validity then daemonPruneWindow validity ds else d :: ds

/-- The `except` dispatch of `Daemon.Run` (daemon.py lines 163-186):
`KeyboardInterrupt` exits cleanly; `CredentialError` (matched before its
superclass `TransientError`) switches to backup mode; `TransientError` is
appended to the supervisor's window and switches to backup mode only past
the threshold; any other exception switches to backup mode. -/
def Daemon.HandleError (now : Nat) (window : List Nat) :
    PyError → DaemonAction × List Nat
  | .keyboardInterrupt => (.exitClean, window)
  | .credentialError => (.backupMode, window)
  | .transientError =>
      let window1 := window ++ [now]
      let window2 := daemonPruneWindow ((now : Int) - 3600) window1
      if 4 ≤ window2.length then (.backupMode, window2)
      else (.continueLoop, window2)
  | _ => (.backupMode, window)

/-- Parameter count of `Queue.__init__` besides `self`:
`def __init__(self, config, sql)` (queue.py line 86). -/
def QueueInitParamCount : Nat := 2

/-- Argument count at the construction site in `Daemon.Run`:
`queue.Queue(self._config, self._sql, self._deadline)` (daemon.py line
161). -/
def DaemonQueueCallArgCount : Nat := 3

/-- Python call semantics for the constructor call: a `TypeError` is raised
when the number of supplied positional arguments differs from the number of
declared parameters. -/
def callQueueConstructor (argCount : Nat) : Except PyError Unit :=
  if argCount = QueueInitParamCount then .ok () else .error .typeError

/-- One iteration of the `while True` loop of `Daemon.Run` (daemon.py lines
159-186): construct the queue, run it (`Queue.Run` loops forever, so it
only terminates by raising; `runQueue` reports the number of jobs
dispatched before the exception together with the exception), and dispatch
the exception.  Returns the action taken, the updated supervisor window,
and the number of jobs dispatched during the iteration. -/
def DaemonIteration (now : Nat) (window : List Nat)
    (runQueue : Unit → Nat × PyError) : DaemonAction × List Nat × Nat :=
  match callQueueConstructor DaemonQueueCallArgCount with
  | .error e =>
      let (a, w) := Daemon.HandleError now window e
      (a, w, 0)
  | .ok _ =>
      let (n, e) := runQueue ()
      let (a, w) := Daemon.HandleError now window e
      (a, w, n)

/-! ## provisioning.py: `UserDeleteJob.Run` -/

/-- The remote user entry fields consulted by `UserDeleteJob.Run`. -/
structure UserEntry where
  isAdmin : Bool
  deriving DecidableEq, Repr

/-- A remote Directory-API call issued by the handler. -/
inductive ApiCall
  | retrieveUser (username : String)
  | deleteUser (username : String)
  deriving DecidableEq, Repr

/-- How `UserDeleteJob.Run` terminated. -/
inductive UserDeleteResult
  | markedAdmin (row : QueueRow)
  | permanentErr (msg : String)
  | succeeded (row : QueueRow)
  deriving DecidableEq, Repr

/-- The observable trace of one `UserDeleteJob.Run` execution: the remote
API calls made (in order), the number of critical log events emitted, and
the termination. -/
structure UserDeleteTrace where
  apiCalls : List ApiCall
  criticalLogs : Nat
  result : UserDeleteResult
  deriving DecidableEq, Repr

/-- The environment of one `UserDeleteJob.Run` execution: what
`RetrieveUser` returns and whether the local mirror row exists. -/
structure UserDeleteEnv where
  remoteUser : Option UserEntry
  localAccountExists : Bool
  deriving DecidableEq, Repr

/-- `UserDeleteJob.Run` (provisioning.py lines 129-156): in non-privileged
mode (`gappsd.admin-only-jobs` false) park the row with `MarkAdmin` before
any API call; otherwise retrieve the user (permanent failure when absent or
when an administrator), delete it remotely, drop the local mirror, and
update the row to success. -/
def UserDeleteJob.Run (cfg : Config) (now : Nat) (env : UserDeleteEnv)
    (username : String) (r : QueueRow) : UserDeleteTrace :=
  if !cfg.admin_only_jobs then
    let (r', _) := Job.MarkAdmin r
    { apiCalls := [], criticalLogs := 1, result := .markedAdmin r' }
  else
    match env.remoteUser with
    | none =>
        { apiCalls := [.retrieveUser username], criticalLogs := 0,
          result := .permanentErr
            ("User '" ++ username ++ "' did not exist. Deletion failed.") }
    | some user =>
        if user.isAdmin then
          { apiCalls := [.retrieveUser username], criticalLogs := 0,
            result := .permanentErr
              ("Administrators cannot be deleted directly, you" ++
               " must remove their admin status first.") }
        else
          let r' :=
            match Job.Update cfg now r .success "" with
            | .ok r' => r'
            | .error _ => r
          { apiCalls := [.retrieveUser username, .deleteUser username],
            criticalLogs := 0,
            result := .succeeded r' }

/-! ## reporting.py: `ReportingApiClient.GetLatestReportDate` -/

/-- A Pacific-time instant, as minutes since a Pacific-midnight-aligned
epoch; `now_pst.date()` of reporting.py. -/
def pacificDate (tmin : Nat) : Nat := tmin / 1440

/-- `now_pst.hour` of reporting.py. -/
def pacificHour (tmin : Nat) : Nat := tmin % 1440 / 60

/-- `ReportingApiClient.GetLatestReportDate` (reporting.py lines 276-284):
`now_pst.date() - datetime.timedelta(2 if now_pst.hour < 12 else 1)`.
The result is a day number (possibly negative relative to the epoch). -/
def GetLatestReportDate (tmin : Nat) : Int :=
  (pacificDate tmin : Int) - (if pacificHour tmin < 12 then 2 else 1)

/-! ## Theorems for the claims -/

/-- C9: for every Pacific-time instant, `GetLatestReportDate` returns the
instant's date minus 1 day when the local hour is 12 or later, and the date
minus 2 days otherwise; in particular at Pacific 11:59 (minute 719 of day
`d`) it returns `d - 2` and at 12:01 (minute 721) it returns `d - 1`. -/
theorem C9_latest_report_date (tmin : Nat) :
    (12 ≤ pacificHour tmin →
      GetLatestReportDate tmin = (pacificDate tmin : Int) - 1) ∧
    (pacificHour tmin < 12 →
      GetLatestReportDate tmin = (pacificDate tmin : Int) - 2) ∧
    (∀ d : Nat, GetLatestReportDate (d * 1440 + 719) = (d : Int) - 2 ∧
                GetLatestReportDate (d * 1440 + 721) = (d : Int) - 1) := by
  refine ⟨?_, ?_, ?_⟩
  · intro h
    unfold GetLatestReportDate
    rw [if_neg (by omega)]
  · intro h
    unfold GetLatestReportDate
    rw [if_pos h]
  · intro d
    constructor
    · have h1 : pacificHour (d * 1440 + 719) = 11 := by
        unfold pacificHour; omega
      have h2 : pacificDate (d * 1440 + 719) = d := by
        unfold pacificDate; omega
      unfold GetLatestReportDate
      rw [h1, h2]
      norm_num
    · have h1 : pacificHour (d * 1440 + 721) = 12 := by
        unfold pacificHour; omega
      have h2 : pacificDate (d * 1440 + 721) = d := by
        unfold pacificDate; omega
      unfold GetLatestReportDate
      rw [h1, h2]
      norm_num

/-- C9 witness: the theorem at the concrete instant 11:59 of day 10
(minute 15119) and, through the third conjunct, at 12:01 of day 10. -/
theorem C9_latest_report_date_witness :
    GetLatestReportDate 15119 = 8 ∧ GetLatestReportDate 15121 = 9 := by
  have h := (C9_latest_report_date 15119).2.2 10
  exact ⟨h.1, ((C9_latest_report_date 15121).2.2 10).2⟩

/-- C3 counterexample: of the four job types the claim designates as
side-effect-free, only `u_sync` actually reports `False`; `n_resync`,
`r_activity` and `r_accounts` inherit the default `True`. -/
theorem C3_counterexample :
    ¬ (HasSideEffects JobType.u_sync = false ∧
       HasSideEffects JobType.n_resync = false ∧
       HasSideEffects JobType.r_activity = false ∧
       HasSideEffects JobType.r_accounts = false) := by decide

/-- C3 amended: `HasSideEffects()` returns `False` for `u_sync` only; for
`n_resync`, `r_activity` and `r_accounts` it returns `True`, since those
classes declare no `PROP__SIDE_EFFECTS` and inherit the default `True`. -/
theorem C3_side_effect_flags :
    HasSideEffects JobType.u_sync = false ∧
    HasSideEffects JobType.n_resync = true ∧
    HasSideEffects JobType.r_activity = true ∧
    HasSideEffects JobType.r_accounts = true ∧
    HasSideEffects JobType.u_create = true ∧
    HasSideEffects JobType.u_delete = true ∧
    HasSideEffects JobType.u_update = true ∧
    HasSideEffects JobType.n_create = true ∧
    HasSideEffects JobType.n_delete = true := by decide

/-- C2: `Job.Update(softfail, message)` on a job whose `r_softfail_count`
is `threshold - 1` increments the count to the threshold and writes status
`hardfail`, `r_result = message ++ " [softfail threshold reached]"` and
`p_end_date = now`; when the incremented count is still below the
threshold it writes status `softfail` with
`p_notbefore_date = now + softfail-delay`, `r_softfail_date = now`,
`r_result = message` and no `p_end_date`. -/
theorem C2_softfail_update (cfg : Config) (now count : Nat) (msg : String)
    (hthr : 1 ≤ cfg.job_softfail_threshold) :
    (count = cfg.job_softfail_threshold - 1 →
      Job.UpdateValues cfg now count .softfail msg =
        .ok { p_status := some .hardfail,
              p_notbefore_date := some (now + cfg.job_softfail_delay),
              r_softfail_date := some now,
              r_softfail_count := some cfg.job_softfail_threshold,
              p_end_date := some now,
              r_result := some (msg ++ " [softfail threshold reached]") }) ∧
    (count + 1 < cfg.job_softfail_threshold →
      Job.UpdateValues cfg now count .softfail msg =
        .ok { p_status := some .softfail,
              p_notbefore_date := some (now + cfg.job_softfail_delay),
              r_softfail_date := some now,
              r_softfail_count := some (count + 1),
              p_end_date := none,
              r_result := some msg }) := by
  constructor
  · intro hc
    have hcount : count + 1 = cfg.job_softfail_threshold := by omega
    simp [Job.UpdateValues, hcount]
  · intro hc
    have h2 : ¬ (cfg.job_softfail_threshold ≤ count + 1) := by omega
    simp [Job.UpdateValues, h2]

/-- C2 witness: with the default configuration (threshold 4, delay 300), a
count of 3 promotes to `hardfail` with the suffix, and a count of 1 softly
fails with the retry columns. -/
theorem C2_softfail_update_witness :
    Job.UpdateValues ⟨300, 4, false, false, 2, 10, 30⟩ 1000 3 .softfail "net" =
      .ok { p_status := some .hardfail,
            p_notbefore_date := some 1300,
            r_softfail_date := some 1000,
            r_softfail_count := some 4,
            p_end_date := some 1000,
            r_result := some "net [softfail threshold reached]" } ∧
    Job.UpdateValues ⟨300, 4, false, false, 2, 10, 30⟩ 1000 1 .softfail "foo" =
      .ok { p_status := some .softfail,
            p_notbefore_date := some 1300,
            r_softfail_date := some 1000,
            r_softfail_count := some 2,
            p_end_date := none,
            r_result := some "foo" } := by
  constructor
  · exact (C2_softfail_update ⟨300, 4, false, false, 2, 10, 30⟩ 1000 3 "net"
      (by decide)).1 (by decide)
  · exact (C2_softfail_update ⟨300, 4, false, false, 2, 10, 30⟩ 1000 1 "foo"
      (by decide)).2 (by decide)

/-- A `softfail` row whose `p_notbefore_date` has passed but whose
`p_start_date` is only 40 seconds old at instant 100. -/
def c1RowSoftfail : QueueRow :=
  { q_id := 7, j_type := "u_sync", p_priority := "normal",
    p_status := .softfail, p_admin_request := false, p_entry_date := 0,
    p_notbefore_date := 50, p_start_date := some 60, p_end_date := none,
    r_softfail_count := 1, r_softfail_date := some 60, r_result := "" }

/-- An `active` row with `p_start_date` NULL and `p_notbefore_date`
passed. -/
def c1RowActiveNull : QueueRow :=
  { q_id := 8, j_type := "u_sync", p_priority := "normal",
    p_status := .active, p_admin_request := false, p_entry_date := 0,
    p_notbefore_date := 0, p_start_date := none, p_end_date := none,
    r_softfail_count := 0, r_softfail_date := none, r_result := "" }

/-- C1 counterexample: the claimed characterisation disagrees with the
eligibility query in both directions.  A softfail row with a fresh
`p_start_date` is dispatchable per the claim but not matched by the query
(the 90-second clause also applies to softfail rows), and an active row
with NULL `p_start_date` is matched by the query (the `p_start_date IS
NULL` disjunct) but not dispatchable per the claim. -/
theorem C1_counterexample :
    (dispatchableSpecC1 100 c1RowSoftfail = true ∧
     activeJobsWhereClause 100 c1RowSoftfail = false) ∧
    (dispatchableSpecC1 100 c1RowActiveNull = false ∧
     activeJobsWhereClause 100 c1RowActiveNull = true) := by decide

/-- C1 amended: a row is matched by the eligibility query iff it is
non-admin, `p_notbefore_date ≤ now`, `p_status` is idle, active or
softfail, and (`p_start_date` is NULL, or `p_status` is idle, or
`p_start_date` is at least 90 seconds old); in particular an active row
with `p_notbefore_date ≤ now` whose `p_start_date` is exactly 90 seconds
old is dispatchable. -/
theorem C1_eligibility (now : Nat) (r : QueueRow) :
    activeJobsWhereClause now r = true ↔
      (r.p_admin_request = false ∧ r.p_notbefore_date ≤ now ∧
       (r.p_status = .idle ∨ r.p_status = .active ∨ r.p_status = .softfail) ∧
       (r.p_start_date = none ∨ r.p_status = .idle ∨
        (∃ s, r.p_start_date = some s ∧ s + 90 ≤ now))) := by
  obtain ⟨qid, jt, pp, st, adm, ent, nb, sd, ed, sc, sfd, res⟩ := r
  cases st <;> cases sd <;>
    simp [activeJobsWhereClause, statusInIdleActiveSoftfail, leaseExpired] <;>
    tauto

/-- C4: when the `gappsd.read-only` flag is set and the job's handler
declares side effects, `_ProcessJob` writes the row as `hardfail` with the
read-only message (and `p_end_date = now`) and never invokes the handler's
`Run` (the outcome oracle is ignored). -/
theorem C4_read_only_gate (cfg : Config) (now : Nat) (j : JobObj)
    (outcome : RunOutcome)
    (hro : cfg.read_only = true) (hse : HasSideEffects j.jtype = true) :
    ProcessJob cfg now j outcome =
      .ok { ranHandler := false,
            row := { j.data with
                       p_status := .hardfail,
                       p_end_date := some now,
                       r_result := "GAppsd in read-only mode." },
            addedError := none } := by
  simp [ProcessJob, hro, hse, Job.Update, Job.UpdateValues,
        applyUpdateValues, Except.map]

/-- C4 witness: the gate at a concrete read-only configuration and concrete
side-effectful job, against an outcome oracle that would have returned
normally. -/
theorem C4_read_only_gate_witness :
    ProcessJob ⟨300, 4, true, false, 2, 10, 30⟩ 100
        { jtype := .u_create, data := c1RowActiveNull }
        (.normal c1RowActiveNull) =
      .ok { ranHandler := false,
            row := { c1RowActiveNull with
                       p_status := .hardfail,
                       p_end_date := some 100,
                       r_result := "GAppsd in read-only mode." },
            addedError := none } := by
  exact C4_read_only_gate ⟨300, 4, true, false, 2, 10, 30⟩ 100
    { jtype := .u_create, data := c1RowActiveNull }
    (.normal c1RowActiveNull) (by decide) (by decide)

/-- C6: when a handler's `Run` returns normally with the row in a
non-terminal, non-idle status and an unchanged `r_softfail_count`, the
queue manager applies `Update(success)`: the row ends in status `success`
with `p_end_date = now` (and empty `r_result`). -/
theorem C6_implicit_success (cfg : Config) (now : Nat) (j : JobObj)
    (rowAfter : QueueRow)
    (hgate : ¬ (cfg.read_only = true ∧ HasSideEffects j.jtype = true))
    (h1 : rowAfter.p_status ≠ .success) (h2 : rowAfter.p_status ≠ .hardfail)
    (h3 : rowAfter.p_status ≠ .idle)
    (h4 : rowAfter.r_softfail_count = j.data.r_softfail_count) :
    ProcessJob cfg now j (.normal rowAfter) =
      .ok { ranHandler := true,
            row := { rowAfter with
                       p_status := .success,
                       p_end_date := some now,
                       r_result := "" },
            addedError := none } := by
  have hgate' : (cfg.read_only && HasSideEffects j.jtype) = false := by
    cases hro : cfg.read_only <;> cases hse : HasSideEffects j.jtype <;>
      simp_all
  simp [ProcessJob, hgate', h1, h2, h3, h4, Job.Update, Job.UpdateValues,
        applyUpdateValues, Except.map]

/-- C6 witness: a handler that returned normally leaving its row `active`
with an unchanged softfail count, under a non-read-only configuration. -/
theorem C6_implicit_success_witness :
    ProcessJob ⟨300, 4, false, false, 2, 10, 30⟩ 100
        { jtype := .u_create, data := c1RowActiveNull }
        (.normal c1RowActiveNull) =
      .ok { ranHandler := true,
            row := { c1RowActiveNull with
                       p_status := .success,
                       p_end_date := some 100,
                       r_result := "" },
            addedError := none } := by
  exact C6_implicit_success ⟨300, 4, false, false, 2, 10, 30⟩ 100
    { jtype := .u_create, data := c1RowActiveNull } c1RowActiveNull
    (by decide) (by decide) (by decide) (by decide) (by decide)

/-- C8: with `gappsd.admin-only-jobs` false, `UserDeleteJob.Run` terminates
by the mark-admin transition — the row is set to `idle` with
`p_admin_request` true and `p_start_date` NULL, one critical log event is
emitted, and no remote API call is made; with the flag true, when the
target remote user is an administrator the job fails with a
`PermanentError` after the single `RetrieveUser` call. -/
theorem C8_user_delete (cfg : Config) (now : Nat) (env : UserDeleteEnv)
    (username : String) (r : QueueRow) :
    (cfg.admin_only_jobs = false →
      UserDeleteJob.Run cfg now env username r =
        { apiCalls := [], criticalLogs := 1,
          result := .markedAdmin
            { r with p_status := .idle, p_start_date := none,
                     p_admin_request := true } }) ∧
    (∀ u, cfg.admin_only_jobs = true → env.remoteUser = some u →
      u.isAdmin = true →
      UserDeleteJob.Run cfg now env username r =
        { apiCalls := [.retrieveUser username], criticalLogs := 0,
          result := .permanentErr
            ("Administrators cannot be deleted directly, you" ++
             " must remove their admin status first.") }) := by
  constructor
  · intro h
    simp [UserDeleteJob.Run, h, Job.MarkAdmin]
  · intro u h hu hadm
    simp [UserDeleteJob.Run, h, hu, hadm]

/-- C8 witness: the non-privileged refusal and the administrator-target
permanent failure at concrete inputs. -/
theorem C8_user_delete_witness :
    UserDeleteJob.Run ⟨300, 4, false, false, 2, 10, 30⟩ 100
        ⟨some ⟨true⟩, true⟩ "jane" c1RowActiveNull =
      { apiCalls := [], criticalLogs := 1,
        result := .markedAdmin
          { c1RowActiveNull with p_status := .idle, p_start_date := none,
                                 p_admin_request := true } } ∧
    UserDeleteJob.Run ⟨300, 4, false, true, 2, 10, 30⟩ 100
        ⟨some ⟨true⟩, true⟩ "jane" c1RowActiveNull =
      { apiCalls := [.retrieveUser "jane"], criticalLogs := 0,
        result := .permanentErr
          ("Administrators cannot be deleted directly, you" ++
           " must remove their admin status first.") } := by
  constructor
  · exact (C8_user_delete ⟨300, 4, false, false, 2, 10, 30⟩ 100
      ⟨some ⟨true⟩, true⟩ "jane" c1RowActiveNull).1 (by decide)
  · exact (C8_user_delete ⟨300, 4, false, true, 2, 10, 30⟩ 100
      ⟨some ⟨true⟩, true⟩ "jane" c1RowActiveNull).2 ⟨true⟩ (by decide) rfl
      (by decide)

/-- C10: every iteration of `Daemon.Run` constructs the queue with three
arguments while `Queue.__init__` accepts two, so construction raises a
`TypeError`; the catch-all `except Exception` clause then switches the
daemon to backup mode, and no job is ever dispatched (the result does not
depend on what running the queue would have done). -/
theorem C10_daemon_arity_bug (now : Nat) (window : List Nat)
    (runQueue : Unit → Nat × PyError) :
    callQueueConstructor DaemonQueueCallArgCount = .error .typeError ∧
    DaemonIteration now window runQueue = (.backupMode, window, 0) := by
  exact ⟨rfl, rfl⟩

/-! ## Helper lemmas: the scheduler-issued transitions always succeed -/

/-- Reduction of `Except` bind on a success. -/
theorem except_bind_ok {ε : Type u} {α β : Type v} (a : α)
    (f : α → Except ε β) : ((Except.ok a : Except ε α) >>= f) = f a := rfl

/-- Reduction of `Except` bind on an error. -/
theorem except_bind_error {ε : Type u} {α β : Type v} (e : ε)
    (f : α → Except ε β) :
    ((Except.error e : Except ε α) >>= f) = .error e := rfl

/-- `Job.UpdateValues` succeeds for the statuses the scheduler issues
(`softfail`, `success`, `hardfail`). -/
theorem job_update_values_ok (cfg : Config) (now count : Nat)
    (status : Status) (msg : String)
    (h : status = .softfail ∨ status = .success ∨ status = .hardfail) :
    ∃ v, Job.UpdateValues cfg now count status msg = .ok v := by
  cases hx : Job.UpdateValues cfg now count status msg with
  | ok v => exact ⟨v, rfl⟩
  | error e =>
      exfalso
      rcases h with h | h | h <;> subst h
      · by_cases hthr : cfg.job_softfail_threshold ≤ count + 1 <;>
          simp [Job.UpdateValues, hthr] at hx
      · simp [Job.UpdateValues] at hx
      · simp [Job.UpdateValues] at hx

/-- `Job.Update` succeeds for the statuses the scheduler issues. -/
theorem job_update_ok (cfg : Config) (now : Nat) (r : QueueRow)
    (status : Status) (msg : String)
    (h : status = .softfail ∨ status = .success ∨ status = .hardfail) :
    ∃ r', Job.Update cfg now r status msg = .ok r' := by
  obtain ⟨v, hv⟩ := job_update_values_ok cfg now r.r_softfail_count status msg h
  exact ⟨applyUpdateValues r v, by simp [Job.Update, hv, Except.map]⟩

/-- `_ProcessJob` swallows every classified handler outcome: it always
returns normally. -/
theorem processJob_ok (cfg : Config) (now : Nat) (j : JobObj)
    (o : RunOutcome) : ∃ res, ProcessJob cfg now j o = .ok res := by
  cases hx : ProcessJob cfg now j o with
  | ok res => exact ⟨res, rfl⟩
  | error e =>
      exfalso
      unfold ProcessJob at hx
      by_cases hgate : (cfg.read_only && HasSideEffects j.jtype) = true
      · rw [if_pos hgate] at hx
        obtain ⟨r', hr'⟩ := job_update_ok cfg now j.data .hardfail
          "GAppsd in read-only mode." (by simp)
        rw [hr'] at hx
        cases hx
      · rw [if_neg hgate] at hx
        cases o with
        | normal rowAfter =>
            dsimp only at hx
            by_cases hterm : rowAfter.p_status = .success ∨
                rowAfter.p_status = .hardfail ∨ rowAfter.p_status = .idle
            · rw [if_pos hterm] at hx
              cases hx
            · rw [if_neg hterm] at hx
              by_cases hcnt :
                  rowAfter.r_softfail_count = j.data.r_softfail_count
              · rw [if_pos hcnt] at hx
                obtain ⟨r', hr'⟩ := job_update_ok cfg now rowAfter .success ""
                  (by simp)
                rw [hr'] at hx
                cases hx
              · rw [if_neg hcnt] at hx
                cases hx
        | transient rowAt isCred msg =>
            dsimp only at hx
            obtain ⟨r', hr'⟩ := job_update_ok cfg now rowAt .softfail msg
              (by simp)
            rw [hr'] at hx
            cases hx
        | permanent rowAt msg =>
            dsimp only at hx
            obtain ⟨r', hr'⟩ := job_update_ok cfg now rowAt .hardfail msg
              (by simp)
            rw [hr'] at hx
            cases hx

/-- `_CanProcessFromQueue` succeeds on the three priority classes of
`_PRIORITY_ORDER`. -/
theorem canProcessFromQueue_ok (lj : LastJobs) (q : String) (d now : Nat)
    (hq : q = "immediate" ∨ q = "normal" ∨ q = "offline") :
    ∃ b, CanProcessFromQueue lj q d now = .ok b := by
  obtain ⟨imm, nor, off⟩ := lj
  rcases hq with h | h | h <;> subst h
  · cases imm <;> exact ⟨_, rfl⟩
  · cases nor <;> exact ⟨_, rfl⟩
  · cases off <;> exact ⟨_, rfl⟩

/-- The fused dispatch loop over one priority class never raises for the
classes of `_PRIORITY_ORDER`. -/
theorem processClassLoop_ok (cfg : Config) (env : RunEnv) (now : Nat)
    (q : String) (d : Nat)
    (hq : q = "immediate" ∨ q = "normal" ∨ q = "offline") :
    ∀ (fuel : Nat) (st : QueueState),
      ∃ st', processClassLoop cfg env now q d fuel st = .ok st' := by
  intro fuel
  induction fuel with
  | zero => intro st; exact ⟨st, rfl⟩
  | succ n ih =>
      intro st
      unfold processClassLoop
      obtain ⟨b, hb⟩ := canProcessFromQueue_ok st.last_jobs q d now hq
      rw [hb]
      rw [except_bind_ok]
      cases b with
      | false => exact ⟨st, rfl⟩
      | true =>
          simp only [if_pos rfl]
          rcases hJQ : GetJobFromQueue now st.rows q with ⟨jobOpt, rows⟩
          cases jobOpt with
          | none => simpa [hJQ] using ih _
          | some j =>
              obtain ⟨res, hres⟩ := processJob_ok cfg now j (env j.data.q_id)
              simpa [hJQ, hres] using ih _

/-- The per-class dispatch over a list of classes from `_PRIORITY_ORDER`
never raises. -/
theorem processClasses_ok (cfg : Config) (env : RunEnv) (now fuel : Nat)
    (jobCounts delays : List (String × Nat)) :
    ∀ (qs : List String) (st : QueueState),
      (∀ q ∈ qs, q = "immediate" ∨ q = "normal" ∨ q = "offline") →
      ∃ st', processClasses cfg env now fuel jobCounts delays qs st = .ok st' := by
  intro qs
  induction qs with
  | nil => intro st _; exact ⟨st, rfl⟩
  | cons q rest ih =>
      intro st hmem
      unfold processClasses
      by_cases hcnt : 0 < (jobCounts.lookup q).getD 0
      · obtain ⟨st1, hst1⟩ := processClassLoop_ok cfg env now q
          ((delays.lookup q).getD 0) (hmem q (by simp)) fuel st
        obtain ⟨st2, hst2⟩ := ih st1 (fun p hp => hmem p (by simp [hp]))
        refine ⟨st2, ?_⟩
        rw [if_pos hcnt, hst1, except_bind_ok]
        exact hst2
      · obtain ⟨st2, hst2⟩ := ih st (fun p hp => hmem p (by simp [hp]))
        refine ⟨st2, ?_⟩
        rw [if_neg hcnt, except_bind_ok]
        exact hst2

/-- Every error escaping `GetCurrentQueueDelays` is the unsupported
priority-class `PermanentError`. -/
theorem getCurrentQueueDelays_error (cfg : Config) :
    ∀ (counts : List (String × Nat)) (e : PyError),
      GetCurrentQueueDelays cfg counts = .error e →
      ∃ q, delaysDict cfg q = none ∧
        e = .permanentError ("Priority queue '" ++ q ++ "' not supported.") := by
  intro counts
  induction counts with
  | nil => intro e h; simp [GetCurrentQueueDelays] at h
  | cons qc rest ih =>
      intro e h
      obtain ⟨q, cnt⟩ := qc
      unfold GetCurrentQueueDelays at h
      cases hq : queueDelayFor cfg q cnt with
      | error e1 =>
          rw [hq] at h
          rw [except_bind_error] at h
          obtain rfl : e1 = e := by
            simpa using h
          unfold queueDelayFor at hq
          cases hd : delaysDict cfg q with
          | none =>
              rw [hd] at hq
              refine ⟨q, hd, ?_⟩
              simpa using hq.symm
          | some nd =>
              rw [hd] at hq
              by_cases hb : MAX_QUEUE_DELAY < cnt * nd <;> simp [hb] at hq
      | ok d =>
          rw [hq] at h
          rw [except_bind_ok] at h
          cases hrest : GetCurrentQueueDelays cfg rest with
          | error e2 =>
              rw [hrest] at h
              rw [except_bind_error] at h
              obtain rfl : e2 = e := by simpa using h
              exact ih _ hrest
          | ok rest' =>
              rw [hrest] at h
              simp at h

/-- Every error escaping `_CheckTransientErrors` is one of the two
escalation signals. -/
theorem checkTransientErrors_error (now : Nat)
    (errors : List TransientRecord) (e : PyError)
    (h : CheckTransientErrors now errors = .error e) :
    e = .credentialError ∨ e = .transientError := by
  unfold CheckTransientErrors at h
  dsimp only at h
  split at h
  · injection h with h1
    exact Or.inl h1.symm
  · split at h
    · injection h with h1
      exact Or.inr h1.symm
    · cases h

/-- An error escaping `_ProcessNextJob` comes from the per-class delay
computation. -/
theorem processNextJob_error (cfg : Config) (env : RunEnv) (now fuel : Nat)
    (st : QueueState) (e : PyError)
    (h : ProcessNextJob cfg env now fuel st = .error e) :
    GetCurrentQueueDelays cfg (GetJobCounts now st.rows) = .error e := by
  unfold ProcessNextJob at h
  dsimp only at h
  cases hd : GetCurrentQueueDelays cfg (GetJobCounts now st.rows) with
  | error e1 =>
      rw [hd] at h
      rw [except_bind_error] at h
      obtain rfl : e1 = e := by simpa using h
      rfl
  | ok delays =>
      rw [hd] at h
      rw [except_bind_ok] at h
      obtain ⟨st', hst'⟩ := processClasses_ok cfg env now fuel
        (GetJobCounts now st.rows) delays PRIORITY_ORDER st
        (by intro p hp; simpa [PRIORITY_ORDER] using hp)
      rw [hst'] at h
      simp at h

/-- The config.py default configuration values (not read-only, not
admin-only). -/
def cfg0 : Config := ⟨300, 4, false, false, 2, 10, 30⟩

/-- An outcome oracle whose handlers all return normally without touching
their row. -/
def env0 : RunEnv := fun _ => .normal c1RowActiveNull

/-- A runnable idle row whose `p_priority` is not one of the three
priority classes. -/
def c5Row : QueueRow :=
  { q_id := 1, j_type := "u_sync", p_priority := "backup",
    p_status := .idle, p_admin_request := false, p_entry_date := 0,
    p_notbefore_date := 0, p_start_date := none, p_end_date := none,
    r_softfail_count := 0, r_softfail_date := none, r_result := "" }

/-- A queue whose only row sits in the unsupported priority class. -/
def c5State : QueueState :=
  { rows := [c5Row], transient_errors := [], last_jobs := {} }

/-- C5 counterexample: with a single runnable row whose `p_priority` is
`backup`, the delay computation raises a `PermanentError` that escapes
`Queue.Run`'s cycle, and that error is neither of the two sliding-window
escalation signals. -/
theorem C5_counterexample :
    RunCycle cfg0 env0 100 1 c5State =
      .error (.permanentError "Priority queue 'backup' not supported.") ∧
    PyError.permanentError "Priority queue 'backup' not supported." ≠
      .credentialError ∧
    PyError.permanentError "Priority queue 'backup' not supported." ≠
      .transientError := by
  exact ⟨rfl, by decide, by decide⟩

/-- C5 amended: Transient and Permanent errors raised by a job handler are
swallowed by `_ProcessJob` — a Transient one is recorded in the
transient-error window and reflected as the `softfail` row update, a
Permanent one is reflected as the `hardfail` row update — and the only
exceptions that escape a cycle of `Queue.Run` are the two sliding-window
escalation signals of the error-accounting check and the `PermanentError`
raised by the delay computation when some queued row's priority class is
not supported. -/
theorem C5_error_surfacing (cfg : Config) (env : RunEnv) (now fuel : Nat)
    (st : QueueState) (j : JobObj) (rowAt : QueueRow) (isCred : Bool)
    (msg : String)
    (hgate : (cfg.read_only && HasSideEffects j.jtype) = false) :
    (∀ e, RunCycle cfg env now fuel st = .error e →
        e = .credentialError ∨ e = .transientError ∨
        ∃ q, delaysDict cfg q = none ∧
          e = .permanentError ("Priority queue '" ++ q ++ "' not supported.")) ∧
    (∀ r', Job.Update cfg now rowAt .softfail msg = .ok r' →
        ProcessJob cfg now j (.transient rowAt isCred msg) =
          .ok { ranHandler := true, row := r',
                addedError := some { date := now, isCredential := isCred } }) ∧
    (∀ r', Job.Update cfg now rowAt .hardfail msg = .ok r' →
        ProcessJob cfg now j (.permanent rowAt msg) =
          .ok { ranHandler := true, row := r', addedError := none }) := by
  refine ⟨?_, ?_, ?_⟩
  · intro e h
    unfold RunCycle at h
    cases hc : CheckTransientErrors now st.transient_errors with
    | error e1 =>
        rw [hc, except_bind_error] at h
        obtain rfl : e1 = e := by simpa using h
        rcases checkTransientErrors_error now st.transient_errors _ hc
          with h1 | h1
        · exact Or.inl h1
        · exact Or.inr (Or.inl h1)
    | ok pruned =>
        rw [hc, except_bind_ok] at h
        have h2 := processNextJob_error cfg env now fuel _ e h
        exact Or.inr (Or.inr (getCurrentQueueDelays_error cfg _ e h2))
  · intro r' hr'
    unfold ProcessJob
    rw [if_neg (by simp [hgate])]
    dsimp only
    rw [hr']
  · intro r' hr'
    unfold ProcessJob
    rw [if_neg (by simp [hgate])]
    dsimp only
    rw [hr']

/-- C5 witness: the error-escape characterisation applied to the escaped
`backup`-priority error, and the two swallowing clauses applied to a
concrete softfail row. -/
theorem C5_error_surfacing_witness :
    (PyError.permanentError "Priority queue 'backup' not supported." =
        .credentialError ∨
     PyError.permanentError "Priority queue 'backup' not supported." =
        .transientError ∨
     ∃ q, delaysDict cfg0 q = none ∧
       PyError.permanentError "Priority queue 'backup' not supported." =
         .permanentError ("Priority queue '" ++ q ++ "' not supported.")) ∧
    ProcessJob cfg0 100 ⟨.u_create, c1RowSoftfail⟩
        (.transient c1RowSoftfail false "net") =
      .ok { ranHandler := true,
            row := { c1RowSoftfail with
                       p_status := .softfail, p_notbefore_date := 400,
                       r_softfail_date := some 100, r_softfail_count := 2,
                       r_result := "net" },
            addedError := some { date := 100, isCredential := false } } ∧
    ProcessJob cfg0 100 ⟨.u_create, c1RowSoftfail⟩
        (.permanent c1RowSoftfail "boom") =
      .ok { ranHandler := true,
            row := { c1RowSoftfail with
                       p_status := .hardfail, p_end_date := some 100,
                       r_result := "boom" },
            addedError := none } := by
  have h := C5_error_surfacing cfg0 env0 100 1 c5State
    ⟨.u_create, c1RowSoftfail⟩ c1RowSoftfail false "net" (by decide)
  have h3 := C5_error_surfacing cfg0 env0 100 1 c5State
    ⟨.u_create, c1RowSoftfail⟩ c1RowSoftfail false "boom" (by decide)
  exact ⟨h.1 (.permanentError "Priority queue 'backup' not supported.") rfl,
         h.2.1 _ rfl, h3.2.2 _ rfl⟩

/-- C7: whenever the pruned 1-hour transient-error window holds at least 2
credential errors at the start of a poll cycle, the cycle raises
`CredentialError` out of `Queue.Run`, and the supervisor's dispatch on that
exception is to enter backup mode. -/
theorem C7_credential_escalation (cfg : Config) (env : RunEnv)
    (now fuel : Nat) (st : QueueState) (window : List Nat)
    (h : CREDENTIAL_ERRORS_THRESHOLD ≤
        ((dropExpired ((now : Int) - (TRANSIENT_ERRORS_VALIDITY : Int))
            st.transient_errors).filter (·.isCredential)).length) :
    RunCycle cfg env now fuel st = .error .credentialError ∧
    (Daemon.HandleError now window .credentialError).1 = .backupMode := by
  constructor
  · have hcheck : CheckTransientErrors now st.transient_errors =
        .error .credentialError := by
      unfold CheckTransientErrors
      dsimp only
      rw [if_pos h]
    unfold RunCycle
    rw [hcheck, except_bind_error]
  · rfl

/-- A queue state whose window holds two fresh credential errors. -/
def c7State : QueueState :=
  { rows := [], transient_errors := [⟨4000, true⟩, ⟨4500, true⟩],
    last_jobs := {} }

/-- C7 witness: two credential errors recorded 1000 and 500 seconds ago
trip the escalation and the supervisor's backup-mode switch. -/
theorem C7_credential_escalation_witness :
    RunCycle cfg0 env0 5000 1 c7State = .error .credentialError ∧
    (Daemon.HandleError 5000 [] .credentialError).1 = .backupMode :=
  C7_credential_escalation cfg0 env0 5000 1 c7State [] (by decide)

end Gappsd
